import Mathlib

/-! Shallow embedding of the ATPL practice quiz application (`test-app.py`):
the quiz session state machine, score persistence, leaderboard aggregation,
the online-status predicate and the bounded chat log.  MongoDB collections
are modelled as association lists (`scores`, keyed by `user_id`) or as
timestamp-ascending lists of documents (`chat_messages`); wall-clock values
produced by `datetime.now()` are passed in explicitly as integer seconds. -/

namespace Quiz

/-- A question record as loaded from the JSON files.  The source reads the
dict keys with `.get`, so every field may be absent except `options`, which
is read with a `[]` default. -/
structure Question where
  question : Option String
  options : List String
  answer : Option String
  explanation : Option String
  deriving Repr, DecidableEq, Inhabited

/-- One document of the `scores` collection: `score`, `total_questions` and
`timestamp` fields, as written by `update_score` and the completion reset. -/
structure ScoreRec where
  score : Int
  total_questions : Int
  timestamp : Int
  deriving Repr, DecidableEq

/-- The `scores` collection, keyed by `user_id` (the key `update_score`
upserts on). -/
abbrev ScoreStore := List (String × ScoreRec)

/-- One document of the `users` collection, restricted to the fields the
embedded logic reads; `last_active` may be absent. -/
structure UserRec where
  user_id : String
  last_active : Option Int
  deriving Repr, DecidableEq

/-- One document of the `chat_messages` collection. -/
structure ChatMessage where
  user_id : String
  message : String
  timestamp : Int
  deriving Repr, DecidableEq

/-- The per-browser quiz session kept in `st.session_state`. -/
structure SessionState where
  questions_loaded : List Question
  q_index : Nat
  score : Int
  answered : List Bool
  feedback : List String
  choices : List (Option String)
  deriving Repr, DecidableEq

/-- `scores_col.find_one({"user_id": uid}, sort=[("timestamp", -1)])`:
the stored score document for `uid` (at most one per user, since
`update_score` upserts on the `user_id` key). -/
def lookupScore (store : ScoreStore) (uid : String) : Option ScoreRec :=
  (store.find? (fun p => p.1 == uid)).map Prod.snd

/-- `update_score(user_id, score, total_questions)`: upsert by `user_id`,
setting the `score`, `total_questions` and `timestamp` fields. -/
def update_score (store : ScoreStore) (uid : String) (sc tq ts : Int) : ScoreStore :=
  if store.any (fun p => p.1 == uid) then
    store.map (fun p => if p.1 == uid then (p.1, ⟨sc, tq, ts⟩) else p)
  else
    store ++ [(uid, ⟨sc, tq, ts⟩)]

/-- The successful-login branch: the in-memory session is reinitialised
with `score = 0` and empty question/answer lists, and
`update_score(user_id, 0, 0)` resets the persisted score. -/
def login_success (store : ScoreStore) (uid : String) (ts : Int) :
    SessionState × ScoreStore :=
  ({ questions_loaded := [], q_index := 0, score := 0,
     answered := [], feedback := [], choices := [] },
   update_score store uid 0 0 ts)

/-- The mode-change session reset: when the selected file or load mode
changes, the session is reinitialised over the freshly loaded questions
(`q_index = 0`, `score = 0`, `answered`/`feedback`/`choices` replicated to
the question count). -/
def mode_change_reset (questions : List Question) : SessionState :=
  { questions_loaded := questions, q_index := 0, score := 0,
    answered := List.replicate questions.length false,
    feedback := List.replicate questions.length "",
    choices := List.replicate questions.length none }

/-- The fresh-load path: when `questions_loaded` is empty, the freshly
loaded (already shuffled) questions are installed and `q_index`,
`answered`, `feedback` and `choices` are reinitialised; unlike the
mode-change reset, `score` is left as it was. -/
def fresh_load (s : SessionState) (questions : List Question) : SessionState :=
  { s with
      questions_loaded := questions,
      q_index := 0,
      answered := List.replicate questions.length false,
      feedback := List.replicate questions.length "",
      choices := List.replicate questions.length none }

/-- The feedback template for a correct submission. -/
def correct_feedback (q : Question) : String :=
  "✅ Correct!\n\nExplanation: " ++ q.explanation.getD "No explanation."

/-- The feedback template for an incorrect submission. -/
def wrong_feedback (q : Question) : String :=
  "❌ Wrong! Correct: " ++ q.answer.getD "N/A" ++ "\n\nExplanation: " ++
    q.explanation.getD "No explanation."

/-- The Submit Answer button handler.  If the current question is not yet
answered it records the choice, marks it answered, scores it against
`current_q.get("answer")`, stores the templated feedback and auto-saves
the score via `update_score`; otherwise it only shows the informational
"already submitted" notice (the returned `Bool`). -/
def submit_answer (s : SessionState) (store : ScoreStore) (uid : String)
    (choice : Option String) (ts : Int) : SessionState × ScoreStore × Bool :=
  if s.answered.getD s.q_index false = false then
    let current_q := s.questions_loaded.getD s.q_index default
    let correct := choice = current_q.answer
    let new_score := if correct then s.score + 1 else s.score
    let fb := if correct then correct_feedback current_q else wrong_feedback current_q
    ({ s with
        choices := s.choices.set s.q_index choice,
        answered := s.answered.set s.q_index true,
        score := new_score,
        feedback := s.feedback.set s.q_index fb },
     update_score store uid new_score (s.questions_loaded.length : Int) ts,
     false)
  else
    (s, store, true)

/-- Navigation actions of the Previous/Next buttons. -/
inductive NavAction where
  | prev
  | next
  deriving Repr, DecidableEq

/-- The navigation handler: `prev` decrements `q_index` when it is
positive, `next` increments it when `q_index < len(questions) - 1`; a
successful `next` additionally refreshes `last_active` and the chat (the
returned `Bool`). -/
def advance (s : SessionState) (action : NavAction) : SessionState × Bool :=
  match action with
  | .prev =>
    if s.q_index > 0 then ({ s with q_index := s.q_index - 1 }, false)
    else (s, false)
  | .next =>
    if (s.q_index : Int) < (s.questions_loaded.length : Int) - 1 then
      ({ s with q_index := s.q_index + 1 }, true)
    else (s, false)

/-- The completion check after a submission: when
`score >= total_questions`, `scores_col.update_many({}, ...)` resets every
stored score document to `score = 0`, and the local session is
reinitialised. -/
def check_completion (s : SessionState) (store : ScoreStore) (ts : Int) :
    SessionState × ScoreStore :=
  let total_questions := s.questions_loaded.length
  if (total_questions : Int) ≤ s.score then
    ({ s with
        score := 0,
        answered := List.replicate total_questions false,
        feedback := List.replicate total_questions "",
        choices := List.replicate total_questions none,
        q_index := 0 },
     store.map (fun p => (p.1, ⟨0, (total_questions : Int), ts⟩)))
  else (s, store)

/-- The leaderboard rows before sorting: one `(user_id, score)` pair per
user document, the score taken from the latest stored score document for
that user, `0` when none exists. -/
def leaderboard_data (all_users : List UserRec) (store : ScoreStore) :
    List (String × Int) :=
  all_users.map (fun user =>
    (user.user_id,
     match lookupScore store user.user_id with
     | some doc => doc.score
     | none => 0))

/-- The sort key order of `leaderboard_data.sort(key=..., reverse=True)`:
score descending. -/
def score_ge (a b : String × Int) : Prop := b.2 ≤ a.2

instance : DecidableRel score_ge := fun a b => inferInstanceAs (Decidable (b.2 ≤ a.2))

instance : IsTotal (String × Int) score_ge := ⟨fun a b => le_total b.2 a.2⟩

instance : IsTrans (String × Int) score_ge := ⟨fun _ _ _ h h2 => le_trans h2 h⟩

/-- `leaderboard_data.sort(key=lambda x: x[1], reverse=True)`: a stable
sort by score descending (Python guarantees `list.sort` is stable, with
`reverse=True` still preserving the original order of equal keys). -/
def sort_leaderboard (l : List (String × Int)) : List (String × Int) :=
  l.insertionSort score_ge

/-- The displayed leaderboard entry for a given user id. -/
def entry_for (l : List (String × Int)) (uid : String) : Option Int :=
  (l.find? (fun p => p.1 == uid)).map Prod.snd

/-- `ONLINE_THRESHOLD_SECONDS = 120`: seconds of inactivity tolerated
before a user is shown as offline. -/
def ONLINE_THRESHOLD_SECONDS : Int := 120

/-- `is_user_online(user_doc)`: `False` when the document is missing or
has no `last_active` field, otherwise
`(now - last_seen).total_seconds() <= ONLINE_THRESHOLD_SECONDS`. -/
def is_user_online (now : Int) (user_doc : Option UserRec) : Bool :=
  match user_doc with
  | none => false
  | some u =>
    match u.last_active with
    | none => false
    | some last_seen => decide (now - last_seen ≤ ONLINE_THRESHOLD_SECONDS)

/-- Timestamp order on chat documents; the `chat_messages` collection is
modelled as its list of documents sorted by this order ascending, which is
the order every read (`find().sort("timestamp", 1)`) uses. -/
def ts_le (a b : ChatMessage) : Prop := a.timestamp ≤ b.timestamp

instance : DecidableRel ts_le := fun a b => inferInstanceAs (Decidable (a.timestamp ≤ b.timestamp))

instance : IsTotal ChatMessage ts_le := ⟨fun a b => le_total a.timestamp b.timestamp⟩

instance : IsTrans ChatMessage ts_le := ⟨fun _ _ _ h h2 => le_trans h h2⟩

/-- Python's `str.strip()`: the string with leading and trailing
whitespace removed. -/
def strip (s : String) : String :=
  ⟨((s.data.dropWhile Char.isWhitespace).reverse.dropWhile Char.isWhitespace).reverse⟩

/-- `send_message(user_id, msg)`: when `msg.strip()` is non-empty, insert
the stripped message (keeping the collection in timestamp order) and, when
the count exceeds 4, delete the `count - 4` oldest messages by ascending
timestamp. -/
def send_message (chat : List ChatMessage) (uid msg : String) (ts : Int) :
    List ChatMessage :=
  if strip msg ≠ "" then
    if (chat.orderedInsert ts_le ⟨uid, strip msg, ts⟩).length > 4 then
      (chat.orderedInsert ts_le ⟨uid, strip msg, ts⟩).drop
        ((chat.orderedInsert ts_le ⟨uid, strip msg, ts⟩).length - 4)
    else chat.orderedInsert ts_le ⟨uid, strip msg, ts⟩
  else chat

/-- `get_messages(limit=4)`: the first `limit` messages in ascending
timestamp order. -/
def get_messages (chat : List ChatMessage) (limit : Nat) : List ChatMessage :=
  chat.take limit

/-- The session length invariant: the `answered`, `choices` and `feedback`
lists all have the same length as the loaded question list. -/
def len_inv (s : SessionState) : Prop :=
  s.answered.length = s.questions_loaded.length ∧
  s.choices.length = s.questions_loaded.length ∧
  s.feedback.length = s.questions_loaded.length

instance (s : SessionState) : Decidable (len_inv s) :=
  inferInstanceAs (Decidable (_ ∧ _ ∧ _))

/-- A sample three-option question whose correct answer is "B". -/
def sampleQ : Question :=
  { question := some "Q1", options := ["A", "B", "C"],
    answer := some "B", explanation := some "Because B." }

/-- A one-question session whose single question is already answered. -/
def answeredSession : SessionState :=
  { questions_loaded := [sampleQ], q_index := 0, score := 1,
    answered := [true], feedback := ["done"], choices := [some "B"] }

/-- A fresh one-question session with nothing answered yet. -/
def freshSession : SessionState :=
  { questions_loaded := [sampleQ], q_index := 0, score := 0,
    answered := [false], feedback := [""], choices := [none] }

/-- A sample persisted score store with two users. -/
def sampleStore : ScoreStore :=
  [("alice", ⟨3, 5, 1⟩), ("bob", ⟨1, 5, 2⟩)]

theorem find_score_map_set (uid : String) (v : ScoreRec) :
    ∀ store : ScoreStore, store.any (fun p => p.1 == uid) = true →
      lookupScore (store.map (fun p => if p.1 == uid then (p.1, v) else p)) uid = some v := by
  intro store
  induction store with
  | nil => intro h; simp at h
  | cons p rest ih =>
    intro h
    by_cases hp : (p.1 == uid) = true
    · simp [lookupScore, List.find?, hp]
    · simp only [List.any_cons, Bool.or_eq_true] at h
      rcases h with h | h
      · exact absurd h hp
      · simpa [lookupScore, List.find?, hp] using ih h

theorem find_score_append (uid : String) (v : ScoreRec) :
    ∀ store : ScoreStore, store.any (fun p => p.1 == uid) = false →
      lookupScore (store ++ [(uid, v)]) uid = some v := by
  intro store
  induction store with
  | nil => intro _; simp [lookupScore, List.find?]
  | cons p rest ih =>
    intro h
    simp only [List.any_cons, Bool.or_eq_false_iff] at h
    simpa [lookupScore, List.find?, h.1] using ih h.2

theorem lookupScore_update_score (store : ScoreStore) (uid : String) (sc tq ts : Int) :
    lookupScore (update_score store uid sc tq ts) uid = some ⟨sc, tq, ts⟩ := by
  unfold update_score
  cases hb : store.any (fun p => p.1 == uid) with
  | true =>
    rw [if_pos rfl]
    exact find_score_map_set uid _ store hb
  | false =>
    rw [if_neg (by decide)]
    exact find_score_append uid _ store hb

theorem string_append_assoc : ∀ a b c : String, a ++ b ++ c = a ++ (b ++ c)
  | ⟨da⟩, ⟨db⟩, ⟨dc⟩ => congrArg String.mk (List.append_assoc da db dc)

theorem getD_set_self {α : Type} (l : List α) (i : Nat) (a d : α)
    (h : i < l.length) : (l.set i a).getD i d = a := by
  simp [List.getD, List.getElem?_set_eq_of_lt, h]

/-- C2: submit_answer is idempotent per question index: a second Submit
Answer click on an already-answered index changes none of score, choice or
feedback, leaves session and store untouched, and only signals the
informational already-submitted notice. -/
theorem submit_answer_idempotent (s : SessionState) (store : ScoreStore)
    (uid : String) (choice : Option String) (ts : Int)
    (h : s.answered.getD s.q_index false = true) :
    submit_answer s store uid choice ts = (s, store, true) := by
  unfold submit_answer
  rw [if_neg (by rw [h]; decide)]

theorem submit_answer_idempotent_witness :
    answeredSession.answered.getD answeredSession.q_index false = true ∧
    submit_answer answeredSession sampleStore "alice" (some "A") 7 =
      (answeredSession, sampleStore, true) :=
  ⟨by decide, submit_answer_idempotent answeredSession sampleStore "alice" (some "A") 7 (by decide)⟩

/-- C3: submitting on an unanswered index records the choice, marks the
index answered, computes correctness as equality of the choice with the
stored answer, increments the score exactly when correct, and stores
feedback that contains "Correct" when correct, that names the correct
answer when wrong, and that includes the explanation in both cases. -/
theorem submit_answer_unanswered (s : SessionState) (store : ScoreStore) (uid : String)
    (c : Option String) (ts : Int) (ans expl : String)
    (ha : s.q_index < s.answered.length)
    (hc : s.q_index < s.choices.length)
    (hf : s.q_index < s.feedback.length)
    (hun : s.answered.getD s.q_index false = false)
    (hans : (s.questions_loaded.getD s.q_index default).answer = some ans)
    (hexp : (s.questions_loaded.getD s.q_index default).explanation = some expl) :
    (submit_answer s store uid c ts).1.choices.getD s.q_index none = c ∧
    (submit_answer s store uid c ts).1.answered.getD s.q_index false = true ∧
    (c = some ans → (submit_answer s store uid c ts).1.score = s.score + 1) ∧
    (c ≠ some ans → (submit_answer s store uid c ts).1.score = s.score) ∧
    (c = some ans →
      ∃ pre post, (submit_answer s store uid c ts).1.feedback.getD s.q_index "" =
        pre ++ "Correct" ++ post) ∧
    (c ≠ some ans →
      ∃ pre post, (submit_answer s store uid c ts).1.feedback.getD s.q_index "" =
        pre ++ ans ++ post) ∧
    (∃ pre, (submit_answer s store uid c ts).1.feedback.getD s.q_index "" = pre ++ expl) := by
  have hcho : (submit_answer s store uid c ts).1.choices = s.choices.set s.q_index c := by
    unfold submit_answer
    rw [if_pos hun]
  have hansd : (submit_answer s store uid c ts).1.answered =
      s.answered.set s.q_index true := by
    unfold submit_answer
    rw [if_pos hun]
  have hnum : (submit_answer s store uid c ts).1.score =
      if c = (s.questions_loaded.getD s.q_index default).answer
        then s.score + 1 else s.score := by
    unfold submit_answer
    rw [if_pos hun]
  have hfb : (submit_answer s store uid c ts).1.feedback =
      s.feedback.set s.q_index
        (if c = (s.questions_loaded.getD s.q_index default).answer
          then correct_feedback (s.questions_loaded.getD s.q_index default)
          else wrong_feedback (s.questions_loaded.getD s.q_index default)) := by
    unfold submit_answer
    rw [if_pos hun]
  refine ⟨?_, ?_, ?_, ?_, ?_, ?_, ?_⟩
  · rw [hcho]
    exact getD_set_self s.choices s.q_index c none hc
  · rw [hansd]
    exact getD_set_self s.answered s.q_index true false ha
  · intro hcc
    rw [hnum, hans, if_pos hcc]
  · intro hcc
    rw [hnum, hans, if_neg hcc]
  · intro hcc
    rw [hfb, getD_set_self _ _ _ _ hf, hans, if_pos hcc]
    simp only [correct_feedback]
    rw [hexp]
    simp only [Option.getD_some]
    refine ⟨"✅ ", "!\n\nExplanation: " ++ expl, ?_⟩
    rw [show ("✅ " ++ "Correct" : String) = "✅ Correct" from by decide]
    rw [← string_append_assoc "✅ Correct" "!\n\nExplanation: " expl]
    rw [show ("✅ Correct" ++ "!\n\nExplanation: " : String) =
      "✅ Correct!\n\nExplanation: " from by decide]
  · intro hcc
    rw [hfb, getD_set_self _ _ _ _ hf, hans, if_neg hcc]
    simp only [wrong_feedback]
    rw [hans, hexp]
    simp only [Option.getD_some]
    refine ⟨"❌ Wrong! Correct: ", "\n\nExplanation: " ++ expl, ?_⟩
    rw [string_append_assoc ("❌ Wrong! Correct: " ++ ans) "\n\nExplanation: " expl]
  · by_cases hcc : c = some ans
    · rw [hfb, getD_set_self _ _ _ _ hf, hans, if_pos hcc]
      simp only [correct_feedback]
      rw [hexp]
      simp only [Option.getD_some]
      exact ⟨"✅ Correct!\n\nExplanation: ", rfl⟩
    · rw [hfb, getD_set_self _ _ _ _ hf, hans, if_neg hcc]
      simp only [wrong_feedback]
      rw [hans, hexp]
      simp only [Option.getD_some]
      exact ⟨"❌ Wrong! Correct: " ++ ans ++ "\n\nExplanation: ", rfl⟩

theorem submit_answer_unanswered_witness :
    freshSession.q_index < freshSession.answered.length ∧
    freshSession.q_index < freshSession.choices.length ∧
    freshSession.q_index < freshSession.feedback.length ∧
    freshSession.answered.getD freshSession.q_index false = false ∧
    (freshSession.questions_loaded.getD freshSession.q_index default).answer = some "B" ∧
    (freshSession.questions_loaded.getD freshSession.q_index default).explanation =
      some "Because B." ∧
    ((submit_answer freshSession sampleStore "alice" (some "B") 5).1.choices.getD
        freshSession.q_index none = some "B" ∧
     (submit_answer freshSession sampleStore "alice" (some "B") 5).1.answered.getD
        freshSession.q_index false = true ∧
     (some "B" = some "B" →
       (submit_answer freshSession sampleStore "alice" (some "B") 5).1.score =
         freshSession.score + 1) ∧
     (some "B" ≠ some "B" →
       (submit_answer freshSession sampleStore "alice" (some "B") 5).1.score =
         freshSession.score) ∧
     (some "B" = some "B" →
       ∃ pre post,
         (submit_answer freshSession sampleStore "alice" (some "B") 5).1.feedback.getD
           freshSession.q_index "" = pre ++ "Correct" ++ post) ∧
     (some "B" ≠ some "B" →
       ∃ pre post,
         (submit_answer freshSession sampleStore "alice" (some "B") 5).1.feedback.getD
           freshSession.q_index "" = pre ++ "B" ++ post) ∧
     (∃ pre,
       (submit_answer freshSession sampleStore "alice" (some "B") 5).1.feedback.getD
         freshSession.q_index "" = pre ++ "Because B.")) :=
  ⟨by decide, by decide, by decide, by decide, by decide, by decide,
   submit_answer_unanswered freshSession sampleStore "alice" (some "B") 5 "B" "Because B."
     (by decide) (by decide) (by decide) (by decide) (by decide) (by decide)⟩

/-- C7: for a user document carrying a last_active value, the online
predicate holds iff now - last_active is at most 120 seconds, the boundary
inclusive: 0 seconds of inactivity is online, 121 is offline, and exactly
120 is still online. -/
theorem is_user_online_boundary (now t : Int) (u : UserRec)
    (h : u.last_active = some t) :
    (is_user_online now (some u) = true ↔ now - t ≤ 120) ∧
    (now - t = 0 → is_user_online now (some u) = true) ∧
    (now - t = 121 → is_user_online now (some u) = false) ∧
    (now - t = 120 → is_user_online now (some u) = true) := by
  refine ⟨?_, ?_, ?_, ?_⟩ <;>
    simp [is_user_online, h, ONLINE_THRESHOLD_SECONDS] <;> omega

theorem is_user_online_boundary_witness :
    (UserRec.mk "alice" (some 0)).last_active = some 0 ∧
    ((is_user_online 120 (some (UserRec.mk "alice" (some 0))) = true ↔ (120 : Int) - 0 ≤ 120) ∧
     ((120 : Int) - 0 = 0 → is_user_online 120 (some (UserRec.mk "alice" (some 0))) = true) ∧
     ((120 : Int) - 0 = 121 → is_user_online 120 (some (UserRec.mk "alice" (some 0))) = false) ∧
     ((120 : Int) - 0 = 120 → is_user_online 120 (some (UserRec.mk "alice" (some 0))) = true)) :=
  ⟨rfl, is_user_online_boundary 120 0 (UserRec.mk "alice" (some 0)) rfl⟩

/-- C10: every successful login zeroes the logged-in user's score both in
the in-memory session (score field 0, lists cleared) and in the persisted
score store, upserting a score document with score 0 and total_questions 0
that discards whatever score was previously persisted for that user. -/
theorem login_resets_persisted_score (store : ScoreStore) (uid : String) (ts : Int) :
    (login_success store uid ts).1.score = 0 ∧
    lookupScore (login_success store uid ts).2 uid = some ⟨0, 0, ts⟩ :=
  ⟨rfl, lookupScore_update_score store uid 0 0 ts⟩

/-- C1: when score has reached total_questions, the completion check resets
every stored score document (for all users) to score 0 and reinitialises
the local session: score 0, all answered false, all choices none, all
feedback empty, current index 0. -/
theorem check_completion_global_reset (s : SessionState) (store : ScoreStore) (ts : Int)
    (h : (s.questions_loaded.length : Int) ≤ s.score) :
    check_completion s store ts =
      ({ s with
          score := 0,
          answered := List.replicate s.questions_loaded.length false,
          feedback := List.replicate s.questions_loaded.length "",
          choices := List.replicate s.questions_loaded.length none,
          q_index := 0 },
       store.map (fun p => (p.1, ⟨0, (s.questions_loaded.length : Int), ts⟩))) ∧
    ∀ p ∈ (check_completion s store ts).2, p.2.score = 0 := by
  have hred : check_completion s store ts =
      ({ s with
          score := 0,
          answered := List.replicate s.questions_loaded.length false,
          feedback := List.replicate s.questions_loaded.length "",
          choices := List.replicate s.questions_loaded.length none,
          q_index := 0 },
       store.map (fun p => (p.1, ⟨0, (s.questions_loaded.length : Int), ts⟩))) := by
    simp only [check_completion]
    rw [if_pos h]
  refine ⟨hred, ?_⟩
  intro p hp
  rw [hred] at hp
  obtain ⟨q, _, rfl⟩ := List.mem_map.mp hp
  rfl

theorem check_completion_global_reset_witness :
    ((answeredSession.questions_loaded.length : Int) ≤ answeredSession.score) ∧
    (check_completion answeredSession sampleStore 9 =
      ({ answeredSession with
          score := 0,
          answered := List.replicate answeredSession.questions_loaded.length false,
          feedback := List.replicate answeredSession.questions_loaded.length "",
          choices := List.replicate answeredSession.questions_loaded.length none,
          q_index := 0 },
       sampleStore.map
         (fun p => (p.1, ⟨0, (answeredSession.questions_loaded.length : Int), 9⟩))) ∧
     ∀ p ∈ (check_completion answeredSession sampleStore 9).2, p.2.score = 0) :=
  ⟨by decide, check_completion_global_reset answeredSession sampleStore 9 (by decide)⟩

/-- C9: advance moves the current index by plus one for next and minus one
for prev, clamped to the range from 0 to the last index: prev at index 0
and next at the last index leave the session unchanged, every other field
is untouched, and exactly a successful next move reports the
last_active/chat refresh. -/
theorem advance_clamped (s : SessionState)
    (h : s.q_index < s.questions_loaded.length) :
    ((advance s NavAction.prev).1.q_index = s.q_index - 1 ∧
     (advance s NavAction.prev).1.questions_loaded = s.questions_loaded ∧
     (advance s NavAction.prev).1.score = s.score ∧
     (advance s NavAction.prev).1.answered = s.answered ∧
     (advance s NavAction.prev).1.feedback = s.feedback ∧
     (advance s NavAction.prev).1.choices = s.choices ∧
     (advance s NavAction.prev).2 = false ∧
     (advance s NavAction.prev).1.q_index < s.questions_loaded.length ∧
     (s.q_index = 0 → (advance s NavAction.prev).1 = s)) ∧
    ((s.q_index + 1 < s.questions_loaded.length →
        (advance s NavAction.next).1.q_index = s.q_index + 1) ∧
     (advance s NavAction.next).1.questions_loaded = s.questions_loaded ∧
     (advance s NavAction.next).1.score = s.score ∧
     (advance s NavAction.next).1.answered = s.answered ∧
     (advance s NavAction.next).1.feedback = s.feedback ∧
     (advance s NavAction.next).1.choices = s.choices ∧
     (advance s NavAction.next).1.q_index < s.questions_loaded.length ∧
     (s.q_index = s.questions_loaded.length - 1 → (advance s NavAction.next).1 = s) ∧
     ((advance s NavAction.next).2 = true ↔ s.q_index + 1 < s.questions_loaded.length)) := by
  refine ⟨⟨?_, ?_, ?_, ?_, ?_, ?_, ?_, ?_, ?_⟩, ?_, ?_, ?_, ?_, ?_, ?_, ?_, ?_, ?_⟩ <;>
    by_cases h0 : s.q_index > 0 <;>
    by_cases h1 : (s.q_index : Int) < (s.questions_loaded.length : Int) - 1 <;>
    simp [advance, h0, h1] <;> omega

theorem advance_clamped_witness :
    freshSession.q_index < freshSession.questions_loaded.length ∧
    (((advance freshSession NavAction.prev).1.q_index = freshSession.q_index - 1 ∧
      (advance freshSession NavAction.prev).1.questions_loaded =
        freshSession.questions_loaded ∧
      (advance freshSession NavAction.prev).1.score = freshSession.score ∧
      (advance freshSession NavAction.prev).1.answered = freshSession.answered ∧
      (advance freshSession NavAction.prev).1.feedback = freshSession.feedback ∧
      (advance freshSession NavAction.prev).1.choices = freshSession.choices ∧
      (advance freshSession NavAction.prev).2 = false ∧
      (advance freshSession NavAction.prev).1.q_index <
        freshSession.questions_loaded.length ∧
      (freshSession.q_index = 0 →
        (advance freshSession NavAction.prev).1 = freshSession)) ∧
     ((freshSession.q_index + 1 < freshSession.questions_loaded.length →
        (advance freshSession NavAction.next).1.q_index = freshSession.q_index + 1) ∧
      (advance freshSession NavAction.next).1.questions_loaded =
        freshSession.questions_loaded ∧
      (advance freshSession NavAction.next).1.score = freshSession.score ∧
      (advance freshSession NavAction.next).1.answered = freshSession.answered ∧
      (advance freshSession NavAction.next).1.feedback = freshSession.feedback ∧
      (advance freshSession NavAction.next).1.choices = freshSession.choices ∧
      (advance freshSession NavAction.next).1.q_index <
        freshSession.questions_loaded.length ∧
      (freshSession.q_index = freshSession.questions_loaded.length - 1 →
        (advance freshSession NavAction.next).1 = freshSession) ∧
      ((advance freshSession NavAction.next).2 = true ↔
        freshSession.q_index + 1 < freshSession.questions_loaded.length))) :=
  ⟨by decide, advance_clamped freshSession (by decide)⟩

/-- C4: the ordering invariant, that answered, choices and feedback all
have the same length as the loaded question list, holds immediately after
both load paths (mode-change reset and fresh load) and after login, and is
preserved by submit_answer, advance and check_completion. -/
theorem len_inv_preserved (s : SessionState) (qs : List Question) (store : ScoreStore)
    (uid : String) (c : Option String) (ts : Int) (a : NavAction)
    (hinv : len_inv s) :
    len_inv (mode_change_reset qs) ∧
    len_inv (fresh_load s qs) ∧
    len_inv (login_success store uid ts).1 ∧
    len_inv (submit_answer s store uid c ts).1 ∧
    len_inv (advance s a).1 ∧
    len_inv (check_completion s store ts).1 := by
  obtain ⟨h1, h2, h3⟩ := hinv
  refine ⟨?_, ?_, ?_, ?_, ?_, ?_⟩
  · exact ⟨by simp [mode_change_reset], by simp [mode_change_reset], by simp [mode_change_reset]⟩
  · exact ⟨by simp [fresh_load], by simp [fresh_load], by simp [fresh_load]⟩
  · exact ⟨rfl, rfl, rfl⟩
  · by_cases hb : s.answered.getD s.q_index false = false
    · unfold submit_answer
      rw [if_pos hb]
      exact ⟨by simpa using h1, by simpa using h2, by simpa using h3⟩
    · unfold submit_answer
      rw [if_neg hb]
      exact ⟨h1, h2, h3⟩
  · cases a with
    | prev =>
      by_cases h0 : s.q_index > 0
      · unfold advance; rw [if_pos h0]; exact ⟨h1, h2, h3⟩
      · unfold advance; rw [if_neg h0]; exact ⟨h1, h2, h3⟩
    | next =>
      by_cases hn : (s.q_index : Int) < (s.questions_loaded.length : Int) - 1
      · unfold advance; rw [if_pos hn]; exact ⟨h1, h2, h3⟩
      · unfold advance; rw [if_neg hn]; exact ⟨h1, h2, h3⟩
  · by_cases hc : (s.questions_loaded.length : Int) ≤ s.score
    · have hred : check_completion s store ts =
          ({ s with
              score := 0,
              answered := List.replicate s.questions_loaded.length false,
              feedback := List.replicate s.questions_loaded.length "",
              choices := List.replicate s.questions_loaded.length none,
              q_index := 0 },
           store.map (fun p => (p.1, ⟨0, (s.questions_loaded.length : Int), ts⟩))) := by
        simp only [check_completion]
        rw [if_pos hc]
      rw [hred]
      exact ⟨by simp, by simp, by simp⟩
    · have hred : check_completion s store ts = (s, store) := by
        simp only [check_completion]
        rw [if_neg hc]
      rw [hred]
      exact ⟨h1, h2, h3⟩

theorem filter_orderedInsert_score (x : String × Int) (l : List (String × Int)) (v : Int) :
    (l.orderedInsert score_ge x).filter (fun p => p.2 == v) =
      if x.2 == v then x :: l.filter (fun p => p.2 == v)
      else l.filter (fun p => p.2 == v) := by
  induction l with
  | nil =>
    by_cases hx : (x.2 == v) = true <;>
      simp [List.orderedInsert, List.filter_cons, hx]
  | cons b bs ih =>
    by_cases hr : score_ge x b
    · by_cases hx : (x.2 == v) = true <;>
        simp [List.orderedInsert, if_pos hr, List.filter_cons, hx]
    · simp only [List.orderedInsert, if_neg hr, List.filter_cons, ih]
      by_cases hx : (x.2 == v) = true
      · by_cases hb : (b.2 == v) = true
        · exfalso
          have hx' : x.2 = v := by simpa using hx
          have hb' : b.2 = v := by simpa using hb
          exact hr (by simp only [score_ge]; omega)
        · simp [hx, hb]
      · by_cases hb : (b.2 == v) = true <;> simp [hx, hb]

theorem filter_insertionSort_score (l : List (String × Int)) (v : Int) :
    (List.insertionSort score_ge l).filter (fun p => p.2 == v) =
      l.filter (fun p => p.2 == v) := by
  induction l with
  | nil => rfl
  | cons x xs ih =>
    simp only [List.insertionSort, filter_orderedInsert_score, ih, List.filter_cons]

/-- C6: the leaderboard sort is by score descending (pairwise score_ge on
the output), stable (entries with any given score keep their original
relative order: filtering by a score commutes with the sort), and on the
fixture [(A,10),(B,10),(C,5)] the output is [(A,10),(B,10),(C,5)] with A
still before B. -/
theorem sort_leaderboard_desc_stable :
    (∀ l : List (String × Int), (sort_leaderboard l).Sorted score_ge) ∧
    (∀ (l : List (String × Int)) (v : Int),
      (sort_leaderboard l).filter (fun p => p.2 == v) =
        l.filter (fun p => p.2 == v)) ∧
    sort_leaderboard [("A", 10), ("B", 10), ("C", 5)] =
      [("A", 10), ("B", 10), ("C", 5)] :=
  ⟨fun l => List.sorted_insertionSort score_ge l, filter_insertionSort_score, by decide⟩

/-- The leaderboard property asserted by the spec: the displayed entry for
the current user always equals the in-memory session score, superseding
any stale persisted value. -/
def leaderboard_reflects_session : Prop :=
  ∀ (all_users : List UserRec) (store : ScoreStore) (s : SessionState) (uid : String),
    (∃ u ∈ all_users, u.user_id = uid) →
    entry_for (sort_leaderboard (leaderboard_data all_users store)) uid = some s.score

/-- C5 counterexample: with user "u" persisted at score 2 but an in-memory
session score of 5, the displayed leaderboard entry for "u" is the stale
persisted 2, not 5: the in-memory score is never merged into the
leaderboard aggregate. -/
theorem leaderboard_ignores_session_counterexample :
    (∃ u ∈ [UserRec.mk "u" none], u.user_id = "u") ∧
    entry_for (sort_leaderboard
        (leaderboard_data [UserRec.mk "u" none] [("u", ⟨2, 10, 0⟩)])) "u" = some 2 ∧
    (SessionState.mk [] 0 5 [] [] []).score = 5 ∧
    ¬ leaderboard_reflects_session := by
  refine ⟨⟨UserRec.mk "u" none, by simp, rfl⟩, by decide, rfl, fun hclaim => ?_⟩
  have h5 := hclaim [UserRec.mk "u" none] [("u", ⟨2, 10, 0⟩)]
    (SessionState.mk [] 0 5 [] [] []) "u" ⟨UserRec.mk "u" none, by simp, rfl⟩
  rw [show entry_for (sort_leaderboard
      (leaderboard_data [UserRec.mk "u" none] [("u", ⟨2, 10, 0⟩)])) "u" =
      some 2 from by decide] at h5
  exact absurd h5 (by decide)

/-- C5 amended: the leaderboard is built solely from persisted score
documents: every displayed entry's score equals the persisted score looked
up for that entry's user id (0 when none is stored), and the in-memory
session score never enters the computation. -/
theorem leaderboard_entries_from_store (all_users : List UserRec) (store : ScoreStore) :
    ∀ p ∈ sort_leaderboard (leaderboard_data all_users store),
      p.2 = ((lookupScore store p.1).map ScoreRec.score).getD 0 := by
  intro p hp
  simp only [sort_leaderboard, List.mem_insertionSort] at hp
  obtain ⟨u, _, rfl⟩ := List.mem_map.mp hp
  cases hlu : lookupScore store u.user_id <;> simp [leaderboard_data, hlu]

theorem leaderboard_entries_from_store_witness :
    ("u", (2 : Int)) ∈ sort_leaderboard
      (leaderboard_data [UserRec.mk "u" none] [("u", ⟨2, 10, 0⟩)]) ∧
    ("u", (2 : Int)).2 =
      ((lookupScore [("u", ⟨2, 10, 0⟩)] ("u", (2 : Int)).1).map ScoreRec.score).getD 0 :=
  ⟨by decide,
   leaderboard_entries_from_store [UserRec.mk "u" none] [("u", ⟨2, 10, 0⟩)]
     ("u", (2 : Int)) (by decide)⟩

/-- C8: the chat log retains at most 4 messages after any post, posting
keeps the log in ascending timestamp order, and inserting 6 messages
sequentially leaves exactly the last 4, returned in ascending timestamp
order. -/
theorem chat_retention (chat : List ChatMessage) (uid msg : String) (ts : Int)
    (hle : chat.length ≤ 4) :
    (send_message chat uid msg ts).length ≤ 4 ∧
    (List.Sorted ts_le chat → List.Sorted ts_le (send_message chat uid msg ts)) ∧
    get_messages
      (send_message (send_message (send_message (send_message (send_message (send_message
        [] "u" "m1" 1) "u" "m2" 2) "u" "m3" 3) "u" "m4" 4) "u" "m5" 5) "u" "m6" 6) 4 =
      [⟨"u", "m3", 3⟩, ⟨"u", "m4", 4⟩, ⟨"u", "m5", 5⟩, ⟨"u", "m6", 6⟩] := by
  refine ⟨?_, ?_, by decide⟩
  · unfold send_message
    by_cases hm : strip msg ≠ ""
    · rw [if_pos hm]
      have hlen : (chat.orderedInsert ts_le ⟨uid, strip msg, ts⟩).length = chat.length + 1 :=
        List.orderedInsert_length ts_le chat ⟨uid, strip msg, ts⟩
      by_cases hgt : (chat.orderedInsert ts_le ⟨uid, strip msg, ts⟩).length > 4
      · rw [if_pos hgt, List.length_drop]
        omega
      · rw [if_neg hgt]
        omega
    · rw [if_neg hm]
      exact hle
  · intro hs
    unfold send_message
    by_cases hm : strip msg ≠ ""
    · rw [if_pos hm]
      have hoi : List.Sorted ts_le (chat.orderedInsert ts_le ⟨uid, strip msg, ts⟩) :=
        List.Sorted.orderedInsert ⟨uid, strip msg, ts⟩ chat hs
      by_cases hgt : (chat.orderedInsert ts_le ⟨uid, strip msg, ts⟩).length > 4
      · rw [if_pos hgt]
        exact hoi.sublist (List.drop_sublist _ _)
      · rw [if_neg hgt]
        exact hoi
    · rw [if_neg hm]
      exact hs

theorem chat_retention_witness :
    ([] : List ChatMessage).length ≤ 4 ∧
    ((send_message [] "u" "hello" 1).length ≤ 4 ∧
     (List.Sorted ts_le [] → List.Sorted ts_le (send_message [] "u" "hello" 1)) ∧
     get_messages
       (send_message (send_message (send_message (send_message (send_message (send_message
         [] "u" "m1" 1) "u" "m2" 2) "u" "m3" 3) "u" "m4" 4) "u" "m5" 5) "u" "m6" 6) 4 =
       [⟨"u", "m3", 3⟩, ⟨"u", "m4", 4⟩, ⟨"u", "m5", 5⟩, ⟨"u", "m6", 6⟩]) :=
  ⟨by decide, chat_retention [] "u" "hello" 1 (by decide)⟩

theorem len_inv_preserved_witness :
    len_inv freshSession ∧
    (len_inv (mode_change_reset [sampleQ]) ∧
     len_inv (fresh_load freshSession [sampleQ]) ∧
     len_inv (login_success sampleStore "alice" 3).1 ∧
     len_inv (submit_answer freshSession sampleStore "alice" (some "B") 3).1 ∧
     len_inv (advance freshSession NavAction.next).1 ∧
     len_inv (check_completion freshSession sampleStore 3).1) :=
  ⟨by decide,
   len_inv_preserved freshSession [sampleQ] sampleStore "alice" (some "B") 3
     NavAction.next (by decide)⟩

end Quiz
